import Mathlib

/-!
Verification development for the tui-shader repository's off-screen
render-and-readback pipeline.

The relevant Rust code is embedded shallowly:
- the row-alignment arithmetic of `src/util.rs`, `src/lib.rs` and
  `src/backend/wgpu.rs` (`bytes_per_row`, `row_padding`, in u32 and u16
  machine arithmetic, modelled on `Nat` with explicit `% 2^32` / `% 2^16`
  wrapping and `&&&` masking exactly as written);
- the resize-guarded frame-target state machines of
  `src/state.rs::ShaderCanvasState::execute_inner` and
  `src/backend/wgpu.rs::WgpuBackend::execute_inner`, with the sequence of
  GPU calls each render issues recorded as an event trace;
- the de-padding loop of `WgpuBackend::execute_inner` and the widget
  render-loop index of `src/canvas.rs` / `src/lib.rs`;
- the shader-source conversion of `src/util.rs` (parameterised over the
  external WGSL parser and filesystem);
- the construction path `new_inner` of `src/state.rs` (parameterised over
  the external wgpu device, whose failures are panics, i.e. `Option.none`);
- the CPU fallback backend `src/backend/cpu.rs::CpuBackend::execute`.
-/

/-- u32 semantics of `bytes_per_row` (`src/util.rs` lines 46-49, identical in
`src/lib.rs` and in `create_buffer`): `let row_size = width * 4;
(row_size + 255) & !255`, with u32 wrap-around made explicit. -/
def bytes_per_row (width : Nat) : Nat :=
  let row_size := width * 4 % 4294967296
  (row_size + 255) % 4294967296 &&& 4294967040

/-- u32 semantics of `row_padding` (`src/util.rs` lines 51-55, identical in
`src/lib.rs`): `(bytes_per_row - row_size) / 4`, wrapping subtraction. -/
def row_padding (width : Nat) : Nat :=
  let row_size := width * 4 % 4294967296
  let bpr := bytes_per_row width
  (bpr + (4294967296 - row_size)) % 4294967296 / 4

/-- u16 semantics of `bytes_per_row` (`src/backend/wgpu.rs` lines 346-349,
which takes and returns `u16`): `(width * 4 + 255) & !255` in u16. -/
def bytes_per_row16 (width : Nat) : Nat :=
  let row_size := width * 4 % 65536
  (row_size + 255) % 65536 &&& 65280

/-- u16 semantics of `row_padding` (`src/backend/wgpu.rs` lines 351-355). -/
def row_padding16 (width : Nat) : Nat :=
  let row_size := width * 4 % 65536
  let bpr := bytes_per_row16 width
  (bpr + (65536 - row_size)) % 65536 / 4

/-- The u16 index computed by the de-padding loop of
`WgpuBackend::execute_inner` (`src/backend/wgpu.rs` line 322):
`y * (width + row_padding(width)) + x` with all operations in u16. -/
def depadIndex16 (width y x : Nat) : Nat :=
  (y * ((width + row_padding16 width) % 65536) % 65536 + x) % 65536

/-- The u16 index computed by the widget render loops of `src/canvas.rs`
line 80 and `src/lib.rs` line 110:
`y * (width + row_padding(width.into()) as u16) + x` with u16 wrap-around. -/
def renderIndex (width y x : Nat) : Nat :=
  (y * ((width + row_padding width % 65536) % 65536) % 65536 + x) % 65536

/-- Masking a value below `2 ^ (8 + m)` with the mask `(2 ^ m - 1) * 2 ^ 8`
clears its low 8 bits. This is the content of the `& !255` operation in
`bytes_per_row` for both the u32 and the u16 instances. -/
theorem land_clear_low (m x : Nat) (hx : x < 2 ^ (8 + m)) :
    x &&& (2 ^ m - 1) * 2 ^ 8 = 2 ^ 8 * (x / 2 ^ 8) := by
  apply Nat.eq_of_testBit_eq
  intro i
  have hmask : (2 ^ m - 1) * 2 ^ 8 = (2 ^ m - 1) <<< 8 := (Nat.shiftLeft_eq _ _).symm
  have hrhs : 2 ^ 8 * (x / 2 ^ 8) = (x >>> 8) <<< 8 := by
    rw [Nat.shiftLeft_eq, Nat.shiftRight_eq_div_pow]
    ring
  rw [hmask, hrhs, Nat.testBit_land, Nat.testBit_shiftLeft, Nat.testBit_shiftLeft,
    Nat.testBit_shiftRight, Nat.testBit_two_pow_sub_one]
  by_cases h8 : 8 ≤ i
  · have hi : 8 + (i - 8) = i := by omega
    by_cases him : i - 8 < m
    · simp [h8, him, hi]
    · have hxi : x.testBit i = false := by
        apply Nat.testBit_lt_two_pow
        calc x < 2 ^ (8 + m) := hx
          _ ≤ 2 ^ i := Nat.pow_le_pow_right (by norm_num) (by omega)
      simp [h8, him, hi, hxi]
  · simp [h8]

/-- For widths where `width * 4 + 255` does not overflow u32,
`bytes_per_row` computes `256 * ceil((width * 4) / 256)`. -/
theorem bytes_per_row_eq (width : Nat) (h : width ≤ 1073741760) :
    bytes_per_row width = 256 * ((width * 4 + 255) / 256) := by
  have h1 : width * 4 % 4294967296 = width * 4 := Nat.mod_eq_of_lt (by omega)
  have h2 : (width * 4 + 255) % 4294967296 = width * 4 + 255 := Nat.mod_eq_of_lt (by omega)
  have hmask : ((2 : Nat) ^ 24 - 1) * 2 ^ 8 = 4294967040 := by norm_num
  have hpow : (2 : Nat) ^ (8 + 24) = 4294967296 := by norm_num
  have h3 := land_clear_low 24 (width * 4 + 255) (by omega)
  rw [hmask] at h3
  simp only [bytes_per_row, h1, h2, h3]
  norm_num

/-- For u16 widths where `width * 4 + 255` does not overflow u16,
`bytes_per_row16` computes `256 * ceil((width * 4) / 256)`. -/
theorem bytes_per_row16_eq (width : Nat) (h : width ≤ 16320) :
    bytes_per_row16 width = 256 * ((width * 4 + 255) / 256) := by
  have h1 : width * 4 % 65536 = width * 4 := Nat.mod_eq_of_lt (by omega)
  have h2 : (width * 4 + 255) % 65536 = width * 4 + 255 := Nat.mod_eq_of_lt (by omega)
  have hmask : ((2 : Nat) ^ 8 - 1) * 2 ^ 8 = 65280 := by norm_num
  have hpow : (2 : Nat) ^ (8 + 8) = 65536 := by norm_num
  have h3 := land_clear_low 8 (width * 4 + 255) (by omega)
  rw [hmask] at h3
  simp only [bytes_per_row16, h1, h2, h3]
  norm_num

/-- In the non-overflowing range, `row_padding` is the plain (non-wrapping)
`(bytes_per_row width - width * 4) / 4`. -/
theorem row_padding_eq (width : Nat) (h : width ≤ 1073741760) :
    row_padding width = (bytes_per_row width - width * 4) / 4 := by
  have h1 : width * 4 % 4294967296 = width * 4 := Nat.mod_eq_of_lt (by omega)
  have hb := bytes_per_row_eq width h
  have hge : width * 4 ≤ bytes_per_row width := by rw [hb]; omega
  have hlt : bytes_per_row width < 4294967296 := by rw [hb]; omega
  simp only [row_padding, h1]
  have : bytes_per_row width + (4294967296 - width * 4) =
      4294967296 + (bytes_per_row width - width * 4) := by omega
  rw [this, Nat.add_mod_left, Nat.mod_eq_of_lt (by omega)]

/-- In the non-overflowing u16 range, `row_padding16` is the plain
`(bytes_per_row16 width - width * 4) / 4`. -/
theorem row_padding16_eq (width : Nat) (h : width ≤ 16320) :
    row_padding16 width = (bytes_per_row16 width - width * 4) / 4 := by
  have h1 : width * 4 % 65536 = width * 4 := Nat.mod_eq_of_lt (by omega)
  have hb := bytes_per_row16_eq width h
  have hge : width * 4 ≤ bytes_per_row16 width := by rw [hb]; omega
  have hlt : bytes_per_row16 width < 65536 := by rw [hb]; omega
  simp only [row_padding16, h1]
  have : bytes_per_row16 width + (65536 - width * 4) =
      65536 + (bytes_per_row16 width - width * 4) := by omega
  rw [this, Nat.add_mod_left, Nat.mod_eq_of_lt (by omega)]

/-- The padded row width in pixels: `width + row_padding width` equals
`bytes_per_row width / 4` (u32 arithmetic, non-overflowing range). -/
theorem width_add_row_padding (width : Nat) (h : width ≤ 1073741760) :
    width + row_padding width = bytes_per_row width / 4 := by
  rw [row_padding_eq width h, bytes_per_row_eq width h]
  omega

/-- The padded row width in pixels, u16 variant. -/
theorem width_add_row_padding16 (width : Nat) (h : width ≤ 16320) :
    width + row_padding16 width = bytes_per_row16 width / 4 := by
  rw [row_padding16_eq width h, bytes_per_row16_eq width h]
  omega

/-- Length of a row-major nested loop: `height` blocks of `width` items. -/
theorem length_flatMap_range_map {β : Type} (f : Nat → Nat → β) (h w : Nat) :
    ((List.range h).flatMap (fun y => (List.range w).map (f y))).length = h * w := by
  induction h with
  | zero => simp
  | succ n ih =>
    rw [List.range_succ, List.flatMap_append]
    simp [ih, Nat.succ_mul]

/-- Element `y * w + x` of a row-major nested loop is `f y x`. -/
theorem getElem?_flatMap_range_map {β : Type} (f : Nat → Nat → β) (h w y x : Nat)
    (hy : y < h) (hx : x < w) :
    ((List.range h).flatMap (fun y => (List.range w).map (f y)))[y * w + x]? = some (f y x) := by
  induction h with
  | zero => omega
  | succ n ih =>
    rw [List.range_succ, List.flatMap_append, List.getElem?_append]
    rw [length_flatMap_range_map]
    by_cases hyn : y < n
    · have hlt : y * w + x < n * w := by
        have h1 : (y + 1) * w ≤ n * w := Nat.mul_le_mul_right w (by omega)
        have h2 : y * w + w ≤ n * w := by rw [Nat.succ_mul] at h1; omega
        omega
      rw [if_pos hlt]
      exact ih hyn
    · have hyeq : y = n := by omega
      subst hyeq
      have hge : ¬(y * w + x < y * w) := by omega
      rw [if_neg hge]
      have hx' : y * w + x - y * w = x := by omega
      rw [hx']
      simp [List.getElem?_append, List.getElem?_map, List.getElem?_range hx]

/-- `mapM` over `Option` succeeds when every lookup succeeds, and the result
is the pointwise image. -/
theorem mapM_option_exists {α β : Type} (f : α → Option β) :
    ∀ l : List α, (∀ a ∈ l, ∃ b, f a = some b) →
      ∃ out : List β, l.mapM f = some out ∧ out.length = l.length ∧
        ∀ n : Nat, n < l.length → ∃ a, l[n]? = some a ∧ out[n]? = f a := by
  intro l
  induction l with
  | nil => intro; exact ⟨[], rfl, rfl, fun n hn => by simp at hn⟩
  | cons a t ih =>
    intro hmem
    obtain ⟨b, hb⟩ := hmem a (by simp)
    obtain ⟨out, hout, hlen, hget⟩ := ih (fun c hc => hmem c (by simp [hc]))
    refine ⟨b :: out, ?_, by simp [hlen], ?_⟩
    · rw [List.mapM_cons, hb, hout]
      rfl
    · intro n hn
      match n with
      | 0 => exact ⟨a, by simp, by simp [hb]⟩
      | Nat.succ m =>
        obtain ⟨c, hc1, hc2⟩ := hget m (by simp at hn; omega)
        exact ⟨c, by simpa using hc1, by simpa using hc2⟩

/-- The list of padded-buffer indices visited by the de-padding loop of
`WgpuBackend::execute_inner` (`src/backend/wgpu.rs` lines 320-326), in
iteration order: `y` over `0..height`, `x` over `0..width`. -/
def depadIndices (width height : Nat) : List Nat :=
  (List.range height).flatMap (fun y => (List.range width).map (fun x => depadIndex16 width y x))

/-- The de-padding loop of `WgpuBackend::execute_inner` (`src/backend/wgpu.rs`
lines 319-327): look up each visited index in the padded readback and collect
the pixels; an out-of-bounds lookup is a Rust panic, modelled as `none`. -/
def depad {P : Type} (width height : Nat) (padded : List P) : Option (List P) :=
  (depadIndices width height).mapM (fun i => padded[i]?)

/-- GPU calls issued by one `execute_inner` render-and-readback call, in
program order. `createTexture`/`createBuffer` are the frame-target
recreation; `writeBuffer` is the uniform-context upload (recording the two
resolution values written); `submit` is the queue submission. -/
inductive GpuEvent where
  | createTexture (w h : Nat)
  | createBuffer (size : Nat)
  | beginRenderPass
  | draw
  | copyTextureToBuffer (bytesPerRow rows w h : Nat)
  | writeBuffer (resW resH : Nat)
  | submit
  | mapAsync
deriving DecidableEq

/-- The resources and size fields of `src/state.rs::ShaderCanvasState`:
the held texture's dimensions, the staging buffer's byte size, and the
`width`/`height` fields (u32). Only fields with observable size content are
kept; GPU handles carry no further data. -/
structure ShaderCanvasState where
  texW : Nat
  texH : Nat
  bufBytes : Nat
  width : Nat
  height : Nat
deriving DecidableEq

/-- `ShaderCanvasState::new_inner` sizing (`src/state.rs` lines 55-56 and
123-134): texture and buffer created at `DEFAULT_SIZE = 64`, and the
`width`/`height` fields set to 64. `create_buffer` (lines 279-289) sizes the
buffer as `bytes_per_row * height` in u32. -/
def ShaderCanvasState.init : ShaderCanvasState :=
  { texW := 64
    texH := 64
    bufBytes := bytes_per_row 64 * 64 % 4294967296
    width := 64
    height := 64 }

/-- The resize guard of `ShaderCanvasState::execute_inner` (`src/state.rs`
line 144): recreate iff `bytes_per_row(width) != bytes_per_row(self.width)
|| height != self.height`. Note the comparison is against the `width`/
`height` fields, which `execute_inner` never updates. -/
def ShaderCanvasState.step (s : ShaderCanvasState) (w h : Nat) : ShaderCanvasState :=
  if bytes_per_row w ≠ bytes_per_row s.width ∨ h ≠ s.height then
    { s with texW := w, texH := h, bufBytes := bytes_per_row w * h % 4294967296 }
  else s

/-- The GPU calls issued by one `ShaderCanvasState::execute_inner` call
(`src/state.rs` lines 141-219), in order: conditional recreation, render
pass, draw, texture-to-buffer copy, uniform write of the requested
resolution (lines 317-318 write `ctx`, whose `rect` holds the requested
width and height), submit, buffer mapping. -/
def ShaderCanvasState.trace (s : ShaderCanvasState) (w h : Nat) : List GpuEvent :=
  (if bytes_per_row w ≠ bytes_per_row s.width ∨ h ≠ s.height then
    [GpuEvent.createTexture w h, GpuEvent.createBuffer (bytes_per_row w * h % 4294967296)]
  else []) ++
  [GpuEvent.beginRenderPass, GpuEvent.draw,
    GpuEvent.copyTextureToBuffer (bytes_per_row w) h w h,
    GpuEvent.writeBuffer w h, GpuEvent.submit, GpuEvent.mapAsync]

/-- Folding a sequence of render requests from a starting state. -/
def ShaderCanvasState.run (s : ShaderCanvasState) : List (Nat × Nat) → ShaderCanvasState
  | [] => s
  | r :: rs => ShaderCanvasState.run (s.step r.1 r.2) rs

/-- Number of pixels returned by `ShaderCanvasState::execute_inner`
(`src/state.rs` lines 213-218): the full mapped staging buffer is cast to
`Vec<Pixel>` and returned with no de-padding, so the pixel count is the
(post-resize-check) buffer byte size divided by 4. -/
def ShaderCanvasState.executePixelCount (s : ShaderCanvasState) (w h : Nat) : Nat :=
  (s.step w h).bufBytes / 4

/-- The resources and size fields of `src/backend/wgpu.rs::WgpuBackend`:
identical layout, but `width`/`height` are u16 and the resize guard uses the
u16 `bytes_per_row`. -/
structure WgpuBackend where
  texW : Nat
  texH : Nat
  bufBytes : Nat
  width : Nat
  height : Nat
deriving DecidableEq

/-- `WgpuBackend::new_inner` sizing (`src/backend/wgpu.rs` lines 110-115 and
216-228): texture and buffer created at 64 by 64, `width`/`height` fields
set to 64. `create_buffer` (lines 84-94) is u32. -/
def WgpuBackend.init : WgpuBackend :=
  { texW := 64
    texH := 64
    bufBytes := bytes_per_row 64 * 64 % 4294967296
    width := 64
    height := 64 }

/-- The resize guard of `WgpuBackend::execute_inner` (`src/backend/wgpu.rs`
line 232), u16 `bytes_per_row`; the `width`/`height` fields are never
updated after construction. -/
def WgpuBackend.step (s : WgpuBackend) (w h : Nat) : WgpuBackend :=
  if bytes_per_row16 w ≠ bytes_per_row16 s.width ∨ h ≠ s.height then
    { s with texW := w, texH := h, bufBytes := bytes_per_row w * h % 4294967296 }
  else s

/-- The GPU calls issued by one `WgpuBackend::execute_inner` call
(`src/backend/wgpu.rs` lines 231-328). The uniform write (lines 289-297)
uploads a `ShaderInput` whose `resolution` field holds `self.width` and
`self.height` (not the requested dimensions), immediately before `submit`
(line 298). -/
def WgpuBackend.trace (s : WgpuBackend) (w h : Nat) : List GpuEvent :=
  (if bytes_per_row16 w ≠ bytes_per_row16 s.width ∨ h ≠ s.height then
    [GpuEvent.createTexture w h, GpuEvent.createBuffer (bytes_per_row w * h % 4294967296)]
  else []) ++
  [GpuEvent.beginRenderPass, GpuEvent.draw,
    GpuEvent.copyTextureToBuffer (bytes_per_row16 w) h w h,
    GpuEvent.writeBuffer s.width s.height, GpuEvent.submit, GpuEvent.mapAsync]

/-- Folding a sequence of render requests from a starting state. -/
def WgpuBackend.run (s : WgpuBackend) : List (Nat × Nat) → WgpuBackend
  | [] => s
  | r :: rs => WgpuBackend.run (s.step r.1 r.2) rs

/-- The `width`/`height` fields of `ShaderCanvasState` are never assigned
outside construction, so every reachable state carries the construction
values 64. -/
theorem ShaderCanvasState.run_fields_const (reqs : List (Nat × Nat)) :
    (ShaderCanvasState.run ShaderCanvasState.init reqs).width = 64 ∧
      (ShaderCanvasState.run ShaderCanvasState.init reqs).height = 64 := by
  suffices h : ∀ (s : ShaderCanvasState) (rs : List (Nat × Nat)),
      (ShaderCanvasState.run s rs).width = s.width ∧
        (ShaderCanvasState.run s rs).height = s.height by
    exact h ShaderCanvasState.init reqs
  intro s rs
  induction rs generalizing s with
  | nil => exact ⟨rfl, rfl⟩
  | cons r rs ih =>
    have hstep : (s.step r.1 r.2).width = s.width ∧ (s.step r.1 r.2).height = s.height := by
      unfold ShaderCanvasState.step
      split <;> exact ⟨rfl, rfl⟩
    obtain ⟨h1, h2⟩ := ih (s.step r.1 r.2)
    exact ⟨by rw [ShaderCanvasState.run, h1, hstep.1], by rw [ShaderCanvasState.run, h2, hstep.2]⟩

/-- The `width`/`height` fields of `WgpuBackend` are never assigned outside
construction, so every reachable state carries the construction values 64. -/
theorem WgpuBackend.run_fields_frozen (reqs : List (Nat × Nat)) :
    (WgpuBackend.run WgpuBackend.init reqs).width = 64 ∧
      (WgpuBackend.run WgpuBackend.init reqs).height = 64 := by
  suffices h : ∀ (s : WgpuBackend) (rs : List (Nat × Nat)),
      (WgpuBackend.run s rs).width = s.width ∧ (WgpuBackend.run s rs).height = s.height by
    exact h WgpuBackend.init reqs
  intro s rs
  induction rs generalizing s with
  | nil => exact ⟨rfl, rfl⟩
  | cons r rs ih =>
    have hstep : (s.step r.1 r.2).width = s.width ∧ (s.step r.1 r.2).height = s.height := by
      unfold WgpuBackend.step
      split <;> exact ⟨rfl, rfl⟩
    obtain ⟨h1, h2⟩ := ih (s.step r.1 r.2)
    exact ⟨by rw [WgpuBackend.run, h1, hstep.1], by rw [WgpuBackend.run, h2, hstep.2]⟩

/-- The buffer-capacity invariant: every reachable `ShaderCanvasState`
satisfies `bufBytes = bytes_per_row texW * texH` (u32). -/
theorem ShaderCanvasState.run_buf_invariant (reqs : List (Nat × Nat)) :
    (ShaderCanvasState.run ShaderCanvasState.init reqs).bufBytes =
      bytes_per_row (ShaderCanvasState.run ShaderCanvasState.init reqs).texW *
        (ShaderCanvasState.run ShaderCanvasState.init reqs).texH % 4294967296 := by
  suffices h : ∀ (s : ShaderCanvasState) (rs : List (Nat × Nat)),
      s.bufBytes = bytes_per_row s.texW * s.texH % 4294967296 →
        (ShaderCanvasState.run s rs).bufBytes =
          bytes_per_row (ShaderCanvasState.run s rs).texW *
            (ShaderCanvasState.run s rs).texH % 4294967296 by
    exact h ShaderCanvasState.init reqs rfl
  intro s rs
  induction rs generalizing s with
  | nil => exact fun h => h
  | cons r rs ih =>
    intro hs
    apply ih
    unfold ShaderCanvasState.step
    split
    · rfl
    · exact hs

/-- `src/util.rs::WgslShader` (lines 8-14): a shader given as WGSL source
text or as a path to a WGSL file. -/
inductive WgslShader where
  | source (s : String)
  | path (p : String)
deriving DecidableEq

/-- The observable content of `wgpu::ShaderModuleDescriptor` as built by
`src/util.rs`: a `None` label and the WGSL source text. -/
structure ShaderModuleDescriptor where
  label : Option String
  source : String
deriving DecidableEq

/-- The `Box<dyn Error>` returned by the `TryFrom` conversion in
`src/util.rs`: either the naga parse diagnostic or a filesystem error. -/
inductive ShaderConvError (E IOERR : Type) where
  | parse (e : E)
  | io (e : IOERR)
deriving DecidableEq

/-- `src/util.rs::create_shader_module_descriptor` (lines 32-42): parse the
source with naga's WGSL front end; on success return a descriptor wrapping
the source text, on failure return the boxed diagnostic. The external parser
is a parameter. -/
def create_shader_module_descriptor {E IOERR : Type}
    (parse_str : String → Except E Unit) (source : String) :
    Except (ShaderConvError E IOERR) ShaderModuleDescriptor :=
  match parse_str source with
  | Except.ok _ => Except.ok { label := none, source := source }
  | Except.error e => Except.error (ShaderConvError.parse e)

/-- `TryFrom<WgslShader> for ShaderModuleDescriptor` (`src/util.rs` lines
16-30): the `Source` variant converts directly; the `Path` variant first
reads the file (external filesystem as a parameter), propagating a read
error boxed. -/
def wgslShaderTryFrom {E IOERR : Type} (parse_str : String → Except E Unit)
    (read_to_string : String → Except IOERR String) :
    WgslShader → Except (ShaderConvError E IOERR) ShaderModuleDescriptor
  | WgslShader.source s => create_shader_module_descriptor parse_str s
  | WgslShader.path p =>
    match read_to_string p with
    | Except.ok source => create_shader_module_descriptor parse_str source
    | Except.error e => Except.error (ShaderConvError.io e)

/-- The state handle built by `ShaderCanvasState::new_inner` (`src/state.rs`
lines 44-135), abstracted over the external wgpu device and pipeline types. -/
structure StateHandle (D P : Type) where
  device : D
  pipeline : P

/-- `ShaderCanvasState::new_inner` (`src/state.rs` lines 44-135): acquire the
device (the `.expect` calls panic on failure, modelled as `none`), then build
the render pipeline, passing the caller's entry point straight into
`wgpu::FragmentState::entry_point`. `create_render_pipeline` is the external
wgpu call; a validation failure (such as an entry point naming no fragment
function) raises an uncaptured wgpu error whose default handler panics,
modelled as `none`. The function has no error channel: it returns the state
or panics. -/
def new_inner {D P : Type} (get_device : Option D)
    (create_render_pipeline : D → Option String → Option P)
    (entry_point : Option String) : Option (StateHandle D P) :=
  match get_device with
  | none => none
  | some d =>
    match create_render_pipeline d entry_point with
    | none => none
    | some p => some { device := d, pipeline := p }

/-- `ShaderCanvasState::new_with_entry_point` (`src/state.rs` lines 36-41):
wraps the entry point in `Some` and defers to `new_inner`. -/
def new_with_entry_point {D P : Type} (get_device : Option D)
    (create_render_pipeline : D → Option String → Option P)
    (entry_point : String) : Option (StateHandle D P) :=
  new_inner get_device create_render_pipeline (some entry_point)

/-- The `ShaderContext` of `src/lib.rs` (lines 418-425), as read by
`src/backend/cpu.rs`: time and padding floats (their values are irrelevant
here, so the field type is a parameter) and a `[u32; 2]` resolution. -/
structure LibShaderContext (F : Type) where
  time : F
  padding : F
  resolution : Nat × Nat

/-- `CpuBackend::execute` (`src/backend/cpu.rs` lines 36-47): iterate `y`
over `0..height` and `x` over `0..width` (from `ctx.resolution`), pushing
`callback(x, y, ctx, &user_data)` for each cell. -/
def CpuBackend.execute {F T P : Type}
    (callback : Nat → Nat → LibShaderContext F → T → P)
    (ctx : LibShaderContext F) (user_data : T) : List P :=
  (List.range ctx.resolution.2).flatMap
    (fun y => (List.range ctx.resolution.1).map (fun x => callback x y ctx user_data))

/-- C6 (amended): for every width with `width * 4 + 255` below `2^32`,
`bytes_per_row width` is the least multiple of 256 that is at least
`width * 4`, and `row_padding width = (bytes_per_row width - width * 4) / 4`;
in particular width 37 gives 256 bytes per row and 27 padding columns. For
larger widths the u32 arithmetic wraps (see the counterexample). -/
theorem C6_bytes_per_row_alignment :
    (∀ width : Nat, width ≤ 1073741760 →
      width * 4 ≤ bytes_per_row width ∧ 256 ∣ bytes_per_row width ∧
        (∀ m : Nat, 256 ∣ m → width * 4 ≤ m → bytes_per_row width ≤ m) ∧
        row_padding width = (bytes_per_row width - width * 4) / 4) ∧
    bytes_per_row 37 = 256 ∧ row_padding 37 = 27 := by
  refine ⟨?_, by decide, by decide⟩
  intro width h
  have hb := bytes_per_row_eq width h
  refine ⟨by rw [hb]; omega, by rw [hb]; exact ⟨_, rfl⟩, ?_, row_padding_eq width h⟩
  intro m hm hle
  rw [hb]
  omega

/-- Witness for C6 at width 37: applies the theorem and checks that 256 is
the least multiple of 256 at or above 148. -/
theorem C6_bytes_per_row_alignment_witness :
    (37 : Nat) ≤ 1073741760 ∧ 37 * 4 ≤ bytes_per_row 37 ∧ bytes_per_row 37 ≤ 256 :=
  ⟨by decide, (C6_bytes_per_row_alignment.1 37 (by decide)).1,
    (C6_bytes_per_row_alignment.1 37 (by decide)).2.2.1 256 (by decide) (by decide)⟩

/-- Counterexample to C6 as stated: at width `2^30` the u32 multiplication
`width * 4` wraps to 0, so `bytes_per_row` returns 0, which is not a
multiple of 256 at or above `width * 4`. -/
theorem C6_counterexample :
    bytes_per_row 1073741824 = 0 ∧ ¬(1073741824 * 4 ≤ bytes_per_row 1073741824) := by
  decide

/-- C10 (amended): whenever `(bytes_per_row width / 4) * height ≤ 65535`,
the padded-row index `y * (width + row_padding width) + x` of the widget
render loop is strictly below `(bytes_per_row width / 4) * height` (the pixel
count of a staging buffer sized for this request), and the u16 arithmetic
computes it exactly (no wrap-around). Without the bound the u16 arithmetic
can overflow (see the counterexample). -/
theorem C10_index_in_bounds (w h x y : Nat) (hw : w ≤ 65535) (hx : x < w) (hy : y < h)
    (hbound : bytes_per_row w / 4 * h ≤ 65535) :
    y * (w + row_padding w) + x < bytes_per_row w / 4 * h ∧
      renderIndex w y x = y * (w + row_padding w) + x := by
  have hw' : w ≤ 1073741760 := by omega
  have hqe := width_add_row_padding w hw'
  have hble := bytes_per_row_eq w hw'
  set q := bytes_per_row w / 4 with hqdef
  have hwq : w ≤ q := by rw [hqdef, hble]; omega
  have hqsmall : q ≤ 65535 := by
    have h1 : q * 1 ≤ q * h := Nat.mul_le_mul_left q (by omega)
    omega
  have hpad : row_padding w ≤ 63 := by
    rw [row_padding_eq w hw', hble]
    omega
  have hc : h * q = q * h := Nat.mul_comm h q
  have hmul : (y + 1) * q ≤ h * q := mul_le_mul_right' (by omega) q
  have hyq : y * q + q ≤ h * q := by rw [Nat.succ_mul] at hmul; omega
  constructor
  · rw [hqe]
    omega
  · show (y * ((w + row_padding w % 65536) % 65536) % 65536 + x) % 65536 =
      y * (w + row_padding w) + x
    have hpadm : row_padding w % 65536 = row_padding w := Nat.mod_eq_of_lt (by omega)
    rw [hpadm, hqe]
    have hqm : q % 65536 = q := Nat.mod_eq_of_lt (by omega)
    rw [hqm]
    have hyqm : y * q % 65536 = y * q := Nat.mod_eq_of_lt (by omega)
    rw [hyqm]
    exact Nat.mod_eq_of_lt (by omega)

/-- Witness for C10 at width 2, height 1, cell (1, 0). -/
theorem C10_index_in_bounds_witness :
    0 * (2 + row_padding 2) + 1 < bytes_per_row 2 / 4 * 1 ∧
      renderIndex 2 0 1 = 0 * (2 + row_padding 2) + 1 :=
  C10_index_in_bounds 2 1 1 0 (by decide) (by decide) (by decide) (by decide)

/-- Counterexample to C10 as stated: at width 64, height 1025, cell
(0, 1024) — valid u16 dimensions — the index value is 65536, which does not
fit in u16: the u16 arithmetic of the render loop wraps it to 0, so the
index arithmetic does overflow its integer type. -/
theorem C10_counterexample :
    (0 : Nat) < 64 ∧ (1024 : Nat) < 1025 ∧
      1024 * (64 + row_padding 64) + 0 = 65536 ∧ renderIndex 64 1024 0 = 0 ∧
        renderIndex 64 1024 0 ≠ 1024 * (64 + row_padding 64) + 0 := by
  decide

/-- C9: `CpuBackend::execute` returns exactly `width * height` pixels in
row-major order, the entry for cell `(x, y)` being the callback applied to
`(x, y, ctx, user_data)`. -/
theorem C9_cpu_execute (F T P : Type) (callback : Nat → Nat → LibShaderContext F → T → P)
    (ctx : LibShaderContext F) (user_data : T) :
    (CpuBackend.execute callback ctx user_data).length =
        ctx.resolution.1 * ctx.resolution.2 ∧
      ∀ x y : Nat, x < ctx.resolution.1 → y < ctx.resolution.2 →
        (CpuBackend.execute callback ctx user_data)[y * ctx.resolution.1 + x]? =
          some (callback x y ctx user_data) := by
  constructor
  · show ((List.range ctx.resolution.2).flatMap
      (fun y => (List.range ctx.resolution.1).map
        (fun x => callback x y ctx user_data))).length = _
    rw [length_flatMap_range_map]
    exact Nat.mul_comm _ _
  · intro x y hx hy
    exact getElem?_flatMap_range_map (fun y x => callback x y ctx user_data)
      ctx.resolution.2 ctx.resolution.1 y x hy hx

/-- Witness for C9: a 3 by 2 viewport with callback `x + 10 * y`. -/
theorem C9_cpu_execute_witness :
    (CpuBackend.execute (fun x y (_ : LibShaderContext Nat) (_ : Nat) => x + 10 * y)
        { time := 0, padding := 0, resolution := (3, 2) } 0).length = 3 * 2 ∧
      (CpuBackend.execute (fun x y (_ : LibShaderContext Nat) (_ : Nat) => x + 10 * y)
        { time := 0, padding := 0, resolution := (3, 2) } 0)[1 * 3 + 2]? = some 12 :=
  ⟨(C9_cpu_execute Nat Nat Nat _ _ _).1,
    (C9_cpu_execute Nat Nat Nat _ _ _).2 2 1 (by decide) (by decide)⟩

/-- C7: converting a `WgslShader` (either variant) returns the structured
parse diagnostic whenever the WGSL source fails to parse, with no GPU
involvement (the conversion is a pure function of the parser and the
filesystem), and on success returns a descriptor carrying the source text
unchanged. -/
theorem C7_shader_conversion (E IOERR : Type) (parse_str : String → Except E Unit)
    (read_to_string : String → Except IOERR String) :
    (∀ s e, parse_str s = Except.error e →
      wgslShaderTryFrom parse_str read_to_string (WgslShader.source s) =
        Except.error (ShaderConvError.parse e)) ∧
    (∀ s u, parse_str s = Except.ok u →
      wgslShaderTryFrom parse_str read_to_string (WgslShader.source s) =
        Except.ok { label := none, source := s }) ∧
    (∀ p s e, read_to_string p = Except.ok s → parse_str s = Except.error e →
      wgslShaderTryFrom parse_str read_to_string (WgslShader.path p) =
        Except.error (ShaderConvError.parse e)) ∧
    (∀ p s u, read_to_string p = Except.ok s → parse_str s = Except.ok u →
      wgslShaderTryFrom parse_str read_to_string (WgslShader.path p) =
        Except.ok { label := none, source := s }) := by
  refine ⟨fun s e h => ?_, fun s u h => ?_, fun p s e hp h => ?_, fun p s u hp h => ?_⟩ <;>
    simp [wgslShaderTryFrom, create_shader_module_descriptor, *]

/-- Witness for C7 with a concrete parser that rejects everything except
the source text "ok" with diagnostic 3. -/
theorem C7_shader_conversion_witness :
    @wgslShaderTryFrom Nat Nat
        (fun s => if s = "ok" then Except.ok () else Except.error 3)
        (fun _ => Except.ok "ok") (WgslShader.source "bad") =
      Except.error (ShaderConvError.parse 3) ∧
    @wgslShaderTryFrom Nat Nat
        (fun s => if s = "ok" then Except.ok () else Except.error 3)
        (fun _ => Except.ok "ok") (WgslShader.path "p") =
      Except.ok { label := none, source := "ok" } :=
  ⟨(C7_shader_conversion Nat Nat _ _).1 "bad" 3 (by rfl),
    (C7_shader_conversion Nat Nat _ _).2.2.2 "p" "ok" () rfl (by rfl)⟩

/-- C8 (amended): the constructors return the state directly with no error
channel; when the external `create_render_pipeline` validation fails (for
instance because the entry point names no fragment function in the module),
the construction panics — modelled as `none` — carrying no diagnostic value;
on success the entry point is passed through as `Some entry_point`. -/
theorem C8_entry_point_panic (D P : Type) (d : D)
    (create_render_pipeline : D → Option String → Option P) (ep : String) :
    (create_render_pipeline d (some ep) = none →
      new_with_entry_point (some d) create_render_pipeline ep = none) ∧
    (∀ p : P, create_render_pipeline d (some ep) = some p →
      new_with_entry_point (some d) create_render_pipeline ep =
        some { device := d, pipeline := p }) := by
  constructor
  · intro h
    simp [new_with_entry_point, new_inner, h]
  · intro p h
    simp [new_with_entry_point, new_inner, h]

/-- Witness for C8: a pipeline-creation function that always fails makes the
constructor return `none`. -/
theorem C8_entry_point_panic_witness :
    new_with_entry_point (some ()) (fun (_ : Unit) (_ : Option String) => (none : Option Unit))
      "green" = none :=
  (C8_entry_point_panic Unit Unit () (fun _ _ => none) "green").1 rfl

/-- Counterexample to C8 as stated: with an entry point the validation
rejects, the construction result is `none` — the panic — not an error value:
the construction API's type `Option (StateHandle D P)` has no error payload
at all, so no descriptive construction error value can be returned. -/
theorem C8_counterexample :
    new_with_entry_point (some ()) (fun (_ : Unit) (_ : Option String) => (none : Option Unit))
      "nonexistent" = none := by
  rfl

/-- C1 (amended): the `WgpuBackend::execute_inner` de-padding loop, fed a
staging-buffer readback sized for the request and with the u16 index
arithmetic in range, returns exactly `width * height` pixels in row-major
order, entry `(x, y)` being pixel `x` of padded row `y` (the trailing
`row_padding width` pixels of each padded row are discarded). The
`ShaderCanvasState::execute_inner` call instead returns the padded readback
whole: whenever the frame target is recreated for the request, its pixel
count is `bytes_per_row width * height / 4`, not `width * height`. -/
theorem C1_render_readback_pixels :
    (∀ (P : Type) (w h : Nat) (padded : List P),
      1 ≤ w → w ≤ 16320 → 1 ≤ h → bytes_per_row16 w / 4 * h ≤ 65536 →
      padded.length = bytes_per_row16 w / 4 * h →
      ∃ out : List P, depad w h padded = some out ∧ out.length = w * h ∧
        ∀ y x : Nat, y < h → x < w →
          out[y * w + x]? = padded[y * (bytes_per_row16 w / 4) + x]?) ∧
    (∀ (s : ShaderCanvasState) (w h : Nat),
      bytes_per_row w ≠ bytes_per_row s.width ∨ h ≠ s.height →
      ShaderCanvasState.executePixelCount s w h = bytes_per_row w * h % 4294967296 / 4) := by
  constructor
  · intro P w h padded hw1 hw hh hbound hlen
    have hqe := width_add_row_padding16 w hw
    set q := bytes_per_row16 w / 4 with hqdef
    have hwq : w ≤ q := by rw [hqdef, bytes_per_row16_eq w hw]; omega
    have hqsmall : q ≤ 16320 := by rw [hqdef, bytes_per_row16_eq w hw]; omega
    have hc : h * q = q * h := Nat.mul_comm h q
    have hidx : ∀ y x : Nat, y < h → x < w → depadIndex16 w y x = y * q + x := by
      intro y x hy hx
      have hmul : (y + 1) * q ≤ h * q := mul_le_mul_right' (by omega) q
      have hyq : y * q + q ≤ h * q := by rw [Nat.succ_mul] at hmul; omega
      show (y * ((w + row_padding16 w) % 65536) % 65536 + x) % 65536 = y * q + x
      rw [hqe]
      have hqm : q % 65536 = q := Nat.mod_eq_of_lt (by omega)
      rw [hqm]
      have hyqm : y * q % 65536 = y * q := Nat.mod_eq_of_lt (by omega)
      rw [hyqm]
      exact Nat.mod_eq_of_lt (by omega)
    have hmem : ∀ i ∈ depadIndices w h, ∃ b, padded[i]? = some b := by
      intro i hi
      simp only [depadIndices, List.mem_flatMap, List.mem_map, List.mem_range] at hi
      obtain ⟨y, hy, x, hx, rfl⟩ := hi
      rw [hidx y x hy hx]
      have hmul : (y + 1) * q ≤ h * q := mul_le_mul_right' (by omega) q
      have hlt : y * q + x < q * h := by rw [Nat.succ_mul] at hmul; omega
      exact ⟨_, List.getElem?_eq_getElem (by omega)⟩
    obtain ⟨out, hout, hlenout, hget⟩ := mapM_option_exists _ (depadIndices w h) hmem
    have hlenidx : (depadIndices w h).length = h * w :=
      length_flatMap_range_map (fun y x => depadIndex16 w y x) h w
    refine ⟨out, hout, by rw [hlenout, hlenidx]; exact Nat.mul_comm h w, ?_⟩
    intro y x hy hx
    have hn : y * w + x < (depadIndices w h).length := by
      rw [hlenidx]
      have hmul : (y + 1) * w ≤ h * w := mul_le_mul_right' (by omega) w
      rw [Nat.succ_mul] at hmul
      omega
    obtain ⟨a, ha1, ha2⟩ := hget (y * w + x) hn
    have ha3 : (depadIndices w h)[y * w + x]? = some (depadIndex16 w y x) :=
      getElem?_flatMap_range_map (fun y x => depadIndex16 w y x) h w y x hy hx
    rw [ha1] at ha3
    have haeq : a = depadIndex16 w y x := Option.some.inj ha3
    rw [ha2, haeq, hidx y x hy hx]
  · intro s w h hcond
    unfold ShaderCanvasState.executePixelCount ShaderCanvasState.step
    rw [if_pos hcond]

/-- Witness for C1: width 2, height 2, a 128-pixel padded readback
(`bytes_per_row16 2 / 4 = 64` pixels per padded row). -/
theorem C1_render_readback_pixels_witness :
    ∃ out : List Nat, depad 2 2 (List.range 128) = some out ∧ out.length = 2 * 2 ∧
      ∀ y x : Nat, y < 2 → x < 2 →
        out[y * 2 + x]? = (List.range 128)[y * (bytes_per_row16 2 / 4) + x]? :=
  C1_render_readback_pixels.1 Nat 2 2 (List.range 128) (by decide) (by decide) (by decide)
    (by decide) (by rw [List.length_range]; decide)

/-- Counterexample to C1 as stated: the first render-and-readback call of
`ShaderCanvasState` after construction with viewport 37 by 64 keeps the
64-by-64 frame target (the aligned row sizes agree), and the call returns
all 4096 pixels of the padded staging buffer, not 37 * 64 = 2368. -/
theorem C1_counterexample :
    ShaderCanvasState.executePixelCount ShaderCanvasState.init 37 64 = 4096 ∧
      (4096 : Nat) ≠ 37 * 64 := by
  decide

/-- C2 (amended): every reachable `ShaderCanvasState` keeps the buffer
capacity equal to `bytes_per_row texW * texH`; and whenever a call's
resize guard fires (requested aligned row size differs from that of the
`width` field, or requested height differs from the `height` field), the
recreated texture has exactly the requested dimensions and the recreated
buffer exactly `bytes_per_row width * height` bytes. The texture dimensions
do not always equal the last requested ones (see the counterexample). -/
theorem C2_frame_target_invariant :
    (∀ reqs : List (Nat × Nat),
      (ShaderCanvasState.run ShaderCanvasState.init reqs).bufBytes =
        bytes_per_row (ShaderCanvasState.run ShaderCanvasState.init reqs).texW *
          (ShaderCanvasState.run ShaderCanvasState.init reqs).texH % 4294967296) ∧
    (∀ (s : ShaderCanvasState) (w h : Nat),
      bytes_per_row w ≠ bytes_per_row s.width ∨ h ≠ s.height →
      (s.step w h).texW = w ∧ (s.step w h).texH = h ∧
        (s.step w h).bufBytes = bytes_per_row w * h % 4294967296) := by
  refine ⟨ShaderCanvasState.run_buf_invariant, ?_⟩
  intro s w h hcond
  unfold ShaderCanvasState.step
  rw [if_pos hcond]
  exact ⟨rfl, rfl, rfl⟩

/-- Witness for C2: a 100 by 50 request right after construction fires the
guard and sizes texture and buffer to the request. -/
theorem C2_frame_target_invariant_witness :
    (ShaderCanvasState.step ShaderCanvasState.init 100 50).texW = 100 ∧
      (ShaderCanvasState.step ShaderCanvasState.init 100 50).texH = 50 ∧
      (ShaderCanvasState.step ShaderCanvasState.init 100 50).bufBytes =
        bytes_per_row 100 * 50 % 4294967296 :=
  C2_frame_target_invariant.2 ShaderCanvasState.init 100 50 (by decide)

/-- Counterexample to C2 as stated: after a 37 by 64 request the texture
still has width 64 (the guard compares aligned row sizes, and
`bytes_per_row 37 = bytes_per_row 64`), so the texture dimensions do not
equal the last requested `(width, height)`. -/
theorem C2_counterexample :
    (ShaderCanvasState.step ShaderCanvasState.init 37 64).texW = 64 ∧ (64 : Nat) ≠ 37 := by
  decide

/-- C3 (code bug): two consecutive 100 by 64 requests after construction
both recreate the frame target — the second call reallocates even though its
dimensions equal the currently held target's, because `execute_inner` never
updates the `width`/`height` fields it compares against (they stay 64). -/
theorem C3_reallocation_on_repeat :
    GpuEvent.createTexture 100 64 ∈ ShaderCanvasState.trace ShaderCanvasState.init 100 64 ∧
      GpuEvent.createTexture 100 64 ∈
        ShaderCanvasState.trace (ShaderCanvasState.step ShaderCanvasState.init 100 64) 100 64 := by
  decide

/-- C5 (amended): a render-and-readback call with width 0 or height 0 is not
rejected — there is no `InvalidViewport` error anywhere in the API — and the
call recreates the frame target with the zero dimension (a GPU texture
creation call) and submits the frame's command buffer as usual. -/
theorem C5_zero_viewport_submits (reqs : List (Nat × Nat)) (w h : Nat)
    (hzero : w = 0 ∨ h = 0) :
    GpuEvent.createTexture w h ∈
        ShaderCanvasState.trace (ShaderCanvasState.run ShaderCanvasState.init reqs) w h ∧
      GpuEvent.submit ∈
        ShaderCanvasState.trace (ShaderCanvasState.run ShaderCanvasState.init reqs) w h := by
  obtain ⟨hw, hh⟩ := ShaderCanvasState.run_fields_const reqs
  set s := ShaderCanvasState.run ShaderCanvasState.init reqs
  have hcond : bytes_per_row w ≠ bytes_per_row s.width ∨ h ≠ s.height := by
    rcases hzero with rfl | rfl
    · left
      rw [hw]
      decide
    · right
      rw [hh]
      decide
  unfold ShaderCanvasState.trace
  rw [if_pos hcond]
  constructor <;> simp

/-- Witness for C5: a width-0 request right after construction. -/
theorem C5_zero_viewport_submits_witness :
    GpuEvent.createTexture 0 64 ∈ ShaderCanvasState.trace ShaderCanvasState.init 0 64 ∧
      GpuEvent.submit ∈ ShaderCanvasState.trace ShaderCanvasState.init 0 64 :=
  C5_zero_viewport_submits [] 0 64 (Or.inl rfl)

/-- Counterexample to C5 as stated: requests with width 0 (and with height
0) reach `submit` — a GPU submission is performed, so the call is not
rejected before GPU work. -/
theorem C5_counterexample :
    GpuEvent.submit ∈ ShaderCanvasState.trace ShaderCanvasState.init 0 64 ∧
      GpuEvent.submit ∈ ShaderCanvasState.trace ShaderCanvasState.init 64 0 := by
  decide

/-- C4 (amended): on every `WgpuBackend::execute_inner` call the context
uniform is overwritten immediately before the submission, but its
`resolution` holds the backend's stored `width`/`height` fields — which stay
at their construction value 64 forever — as `[f32; 2]` values, not the
requested viewport dimensions as `[u32; 2]`. -/
theorem C4_uniform_write_before_submit (reqs : List (Nat × Nat)) (w h : Nat) :
    ∃ pre : List GpuEvent,
      WgpuBackend.trace (WgpuBackend.run WgpuBackend.init reqs) w h =
        pre ++ [GpuEvent.writeBuffer 64 64, GpuEvent.submit, GpuEvent.mapAsync] := by
  obtain ⟨hw, hh⟩ := WgpuBackend.run_fields_frozen reqs
  set s := WgpuBackend.run WgpuBackend.init reqs
  refine ⟨(if bytes_per_row16 w ≠ bytes_per_row16 s.width ∨ h ≠ s.height then
    [GpuEvent.createTexture w h, GpuEvent.createBuffer (bytes_per_row w * h % 4294967296)]
  else []) ++ [GpuEvent.beginRenderPass, GpuEvent.draw,
    GpuEvent.copyTextureToBuffer (bytes_per_row16 w) h w h], ?_⟩
  unfold WgpuBackend.trace
  rw [hw, hh]
  simp

/-- Counterexample to C4 as stated: a 100 by 50 request writes a uniform
whose resolution is (64, 64), not the requested (100, 50). -/
theorem C4_counterexample :
    GpuEvent.writeBuffer 64 64 ∈ WgpuBackend.trace WgpuBackend.init 100 50 ∧
      GpuEvent.writeBuffer 100 50 ∉ WgpuBackend.trace WgpuBackend.init 100 50 := by
  decide
